import Mathlib

/-!
# Formal model of the BlackRoad Sensor Dashboard core

A shallow embedding of `src/sensor_dashboard.py`.  Numeric values are
modelled as exact rationals (the Python code does exact-enough float
arithmetic through the `statistics` module; IEEE rounding is abstracted
away), timestamps as rationals measured in minutes (the ISO-8601 strings
produced by `datetime.now(timezone.utc).isoformat()` compare
lexicographically exactly as the instants they denote compare
chronologically), and `uuid.uuid4()` as a fresh-counter draw from the
state's `nextId` field (the only property the code relies on is
freshness).  Each method that calls `datetime.now` takes the current
time as an explicit argument.  SQL queries become list operations on the
state: a `WHERE` clause is a `filter`, `ORDER BY timestamp` is a stable
merge sort on the timestamp, `UPDATE ... WHERE id=?` is a `map` that
rewrites the matching rows, and a raised `ValueError` ("not found") is
an `Option`/failure result.  The sample standard deviation
(`statistics.stdev`) is `Real.sqrt` of the Bessel-corrected variance.
-/

namespace SensorDashboard

/-- The `SensorType` enumeration. -/
inductive SensorType where
  | temperature | humidity | pressure | co2 | light | motion | power
deriving DecidableEq, Repr

/-- The `ReadingQuality` enumeration. -/
inductive ReadingQuality where
  | good | degraded | error
deriving DecidableEq, Repr

/-- The `AlertType` enumeration. -/
inductive AlertType where
  | threshold | anomaly | offline
deriving DecidableEq, Repr

/-- The `AlertSeverity` enumeration. -/
inductive AlertSeverity where
  | info | warning | critical
deriving DecidableEq, Repr

/-- The `DEFAULT_THRESHOLDS` table: default `(min, max)` range per sensor
type.  (In the Python dict every `SensorType` is a key, so the `-999/999`
fallback of `DEFAULT_THRESHOLDS.get` is unreachable and does not appear
here.) -/
def DEFAULT_THRESHOLDS : SensorType → ℚ × ℚ
  | .temperature => (-40, 85)
  | .humidity => (0, 100)
  | .pressure => (870, 1084)
  | .co2 => (400, 5000)
  | .light => (0, 100000)
  | .motion => (0, 1)
  | .power => (0, 10000)

/-- The `Sensor` dataclass / `sensors` table row. -/
structure Sensor where
  id : Nat
  device_id : String
  type : SensorType
  unit : String
  min_value : ℚ
  max_value : ℚ
  calibration_offset : ℚ
  name : Option String
  location : Option String
deriving DecidableEq, Repr

/-- The `Reading` dataclass / `readings` table row. -/
structure Reading where
  id : Nat
  sensor_id : Nat
  raw_value : ℚ
  calibrated_value : ℚ
  timestamp : ℚ
  quality : ReadingQuality
deriving DecidableEq, Repr

/-- The `Alert` dataclass / `alerts` table row. -/
structure Alert where
  id : Nat
  sensor_id : Nat
  type : AlertType
  severity : AlertSeverity
  message : String
  triggered_at : ℚ
  resolved_at : Option ℚ
deriving DecidableEq, Repr

/-- The `Alert.is_active` property: `resolved_at is None`. -/
def Alert.is_active (a : Alert) : Bool :=
  a.resolved_at.isNone

/-- The persistent state: the three SQLite tables (each kept in insertion
order, as SQLite returns rows of this schema when no `ORDER BY` reorders
them) plus the fresh-id counter standing in for `uuid.uuid4()`. -/
structure State where
  sensors : List Sensor
  readings : List Reading
  alerts : List Alert
  nextId : Nat
deriving DecidableEq, Repr

/-- The empty database produced by `init_db`. -/
def initState : State := ⟨[], [], [], 0⟩

/-- `SELECT * FROM sensors WHERE id=?` (at most one row: `id` is the
primary key).  `get_sensor` raises `ValueError` when this is `none`. -/
def get_sensor (st : State) (sid : Nat) : Option Sensor :=
  st.sensors.find? (fun s => s.id == sid)

/-- `SensorDashboard.add_sensor`: fill an omitted bound from
`DEFAULT_THRESHOLDS`, insert the new row, return it.  No validation of
the range is performed. -/
def add_sensor (st : State) (device_id : String) (stype : SensorType)
    (unit : String) (min_value? max_value? : Option ℚ)
    (calibration_offset : ℚ) (name location : Option String) :
    State × Sensor :=
  let defaults := DEFAULT_THRESHOLDS stype
  let min_val := min_value?.getD defaults.1
  let max_val := max_value?.getD defaults.2
  let s : Sensor :=
    ⟨st.nextId, device_id, stype, unit, min_val, max_val,
     calibration_offset, name, location⟩
  ({ st with sensors := st.sensors ++ [s], nextId := st.nextId + 1 }, s)

/-- `SensorDashboard.update_calibration`: `UPDATE sensors SET
calibration_offset=? WHERE id=?`, then re-fetch the sensor (`none` when
the id is unknown, in which case the `UPDATE` matched no row and the
state is unchanged). -/
def update_calibration (st : State) (sid : Nat) (offset : ℚ) :
    State × Option Sensor :=
  let st' : State :=
    { st with sensors := st.sensors.map (fun s =>
        if s.id == sid then { s with calibration_offset := offset } else s) }
  (st', get_sensor st' sid)

/-- `ORDER BY timestamp` on readings: a stable sort by timestamp.
(Insertion sort here; any stable sort computes the same list.) -/
def readings_by_time (l : List Reading) : List Reading :=
  l.insertionSort (fun a b => a.timestamp ≤ b.timestamp)

/-- `SensorDashboard.get_current`: `SELECT * FROM readings WHERE
sensor_id=? ORDER BY timestamp DESC LIMIT 1` — the chronologically last
reading of the sensor. -/
def get_current (st : State) (sid : Nat) : Option Reading :=
  (readings_by_time (st.readings.filter (fun r => r.sensor_id == sid))).getLast?

/-- `SensorDashboard.get_history`: readings of the sensor from the last
`hours` hours (timestamps are in minutes), optionally restricted to one
quality, ascending by timestamp. -/
def get_history (st : State) (sid : Nat) (hours : ℚ)
    (quality_filter : Option ReadingQuality) (now : ℚ) : List Reading :=
  let since := now - 60 * hours
  let rows := st.readings.filter (fun r =>
    r.sensor_id == sid && decide (since ≤ r.timestamp))
  let rows := match quality_filter with
    | none => rows
    | some q => rows.filter (fun r => r.quality == q)
  readings_by_time rows

/-- `SensorDashboard._create_alert`: insert a fresh, unresolved alert row
and return it. -/
def create_alert (st : State) (sid : Nat) (t : AlertType)
    (sev : AlertSeverity) (message : String) (now : ℚ) : State × Alert :=
  let a : Alert := ⟨st.nextId, sid, t, sev, message, now, none⟩
  ({ st with alerts := st.alerts ++ [a], nextId := st.nextId + 1 }, a)

/-- The message of a low-threshold alert (`f"Value {val:.3f} below
minimum {sensor.min_value}"`; the 3-decimal formatting is presentation
and is not modelled). -/
def below_min_msg (val lo : ℚ) : String :=
  "Value " ++ toString val ++ " below minimum " ++ toString lo

/-- The message of a high-threshold alert (`f"Value {val:.3f} above
maximum {sensor.max_value}"`). -/
def above_max_msg (val hi : ℚ) : String :=
  "Value " ++ toString val ++ " above maximum " ++ toString hi

/-- `SensorDashboard.check_thresholds`: fetch the current reading (none →
no alert), fetch the sensor (`none` = the `ValueError` of `get_sensor`;
unreachable through `log_reading`, where the sensor was just found), and
create one CRITICAL threshold alert when the calibrated value lies
strictly outside `[min_value, max_value]`. -/
def check_thresholds (st : State) (sid : Nat) (now : ℚ) :
    Option (State × Option Alert) :=
  match get_current st sid with
  | none => some (st, none)
  | some reading =>
    match get_sensor st sid with
    | none => none
    | some sensor =>
      let val := reading.calibrated_value
      if val < sensor.min_value then
        let p := create_alert st sid AlertType.threshold AlertSeverity.critical
          (below_min_msg val sensor.min_value) now
        some (p.1, some p.2)
      else if sensor.max_value < val then
        let p := create_alert st sid AlertType.threshold AlertSeverity.critical
          (above_max_msg val sensor.max_value) now
        some (p.1, some p.2)
      else
        some (st, none)

/-- `SensorDashboard.log_reading`: look the sensor up (`none` = NotFound),
calibrate, insert the reading, run `check_thresholds`, return the
reading. -/
def log_reading (st : State) (sid : Nat) (value : ℚ)
    (quality : ReadingQuality) (now : ℚ) : Option (State × Reading) :=
  match get_sensor st sid with
  | none => none
  | some sensor =>
    let calibrated := value + sensor.calibration_offset
    let r : Reading := ⟨st.nextId, sid, value, calibrated, now, quality⟩
    let st1 : State := { st with readings := st.readings ++ [r], nextId := st.nextId + 1 }
    match check_thresholds st1 sid now with
    | none => none
    | some (st2, _) => some (st2, r)

/-- `SensorDashboard.resolve_alert`: `UPDATE alerts SET resolved_at=?
WHERE id=?`, then `SELECT` the row back; raises (here: `none`) when the
id is unknown — in that case the `UPDATE` matched no row, so the commit
writes nothing and the store is unchanged. -/
def resolve_alert (st : State) (aid : Nat) (now : ℚ) :
    Option (State × Alert) :=
  let alerts' := st.alerts.map (fun a =>
    if a.id == aid then { a with resolved_at := some now } else a)
  let st' : State := { st with alerts := alerts' }
  match alerts'.find? (fun a => a.id == aid) with
  | none => none
  | some a => some (st', a)

/-- `statistics.mean`. -/
def mean (l : List ℚ) : ℚ :=
  l.sum / l.length

/-- The Bessel-corrected sample variance (the square of
`statistics.stdev`). -/
def sampleVariance (l : List ℚ) : ℚ :=
  (l.map (fun x => (x - mean l) ^ 2)).sum / ((l.length : ℚ) - 1)

/-- `statistics.stdev`: square root of the sample variance. -/
noncomputable def stdev (l : List ℚ) : ℝ :=
  Real.sqrt ((sampleVariance l : ℚ) : ℝ)

/-- The calibrated values `detect_anomaly` works on: readings of the
sensor within the trailing `window` minutes whose quality is not
`error`, ascending by timestamp. -/
def anomaly_values (st : State) (sid : Nat) (window now : ℚ) : List ℚ :=
  let since := now - window
  (readings_by_time (st.readings.filter (fun r =>
    r.sensor_id == sid && decide (since ≤ r.timestamp)
      && r.quality != ReadingQuality.error))).map (·.calibrated_value)

/-- The z-score `detect_anomaly` computes: `abs((latest - mean) / stdev)`
with `latest` the last qualifying value. -/
noncomputable def zscore (l : List ℚ) : ℝ :=
  |((l.getLastD 0 : ℚ) - (mean l : ℚ) : ℝ) / stdev l|

/-- `SensorDashboard.detect_anomaly`: needs at least 5 qualifying values
and a nonzero standard deviation; emits one anomaly alert when the
z-score of the latest value exceeds `z_threshold`, CRITICAL when it
exceeds `1.5 * z_threshold`, WARNING otherwise.  (The numeric evidence in
the message is formatted by the Python code to fixed decimal precision;
this presentation detail is not modelled.) -/
noncomputable def detect_anomaly (st : State) (sid : Nat)
    (window z_threshold : ℚ) (now : ℚ) : State × Option Alert :=
  let values := anomaly_values st sid window now
  if values.length < 5 then (st, none)
  else
    let sd := stdev values
    if sd = 0 then (st, none)
    else
      let z := zscore values
      if (z_threshold : ℝ) < z then
        let sev := if (z_threshold : ℝ) * 1.5 < z
          then AlertSeverity.critical else AlertSeverity.warning
        let p := create_alert st sid AlertType.anomaly sev
          ("Anomaly: value=" ++ toString (values.getLastD 0)) now
        (p.1, some p.2)
      else (st, none)

/-- Round to 4 decimal places, as `round(x, 4)` does.  (Python rounds
half-to-even; `round` here rounds half-up.  The difference surfaces only
at exact five-in-the-fifth-place ties and is irrelevant to every claim.) -/
def round4 (x : ℚ) : ℚ :=
  (round (x * 10000) : ℤ) / 10000

/-- `round(x, 4)` on the (real-valued) standard deviation. -/
noncomputable def round4R (x : ℝ) : ℝ :=
  ((round (x * 10000) : ℤ) : ℝ) / 10000

/-- The result dict of `get_stats`. -/
structure Stats where
  count : Nat
  min? : Option ℚ
  max? : Option ℚ
  avg? : Option ℚ
  stddev? : Option ℝ

/-- The calibrated values `get_stats` aggregates: the history of the last
`hours` hours without the `error`-quality readings. -/
def stats_values (st : State) (sid : Nat) (hours now : ℚ) : List ℚ :=
  ((get_history st sid hours none now).filter (fun r =>
    r.quality != ReadingQuality.error)).map (·.calibrated_value)

/-- `SensorDashboard.get_stats`: count/min/max/mean/stddev over the
non-error history, all-`none` when no value qualifies, standard
deviation 0 for a single value. -/
noncomputable def get_stats (st : State) (sid : Nat) (hours now : ℚ) : Stats :=
  let values := stats_values st sid hours now
  if values.isEmpty then ⟨0, none, none, none, none⟩
  else
    let m := mean values
    let sd : ℝ := if 1 < values.length then stdev values else 0
    ⟨values.length, values.min?, values.max?, some (round4 m), some (round4R sd)⟩

/-- `SensorDashboard.mark_sensor_offline`: one WARNING offline alert. -/
def mark_sensor_offline (st : State) (sid : Nat) (now : ℚ) : State × Alert :=
  create_alert st sid AlertType.offline AlertSeverity.warning
    ("Sensor " ++ toString sid ++ " appears offline") now

/-- `n` successive `log_reading` calls of the same raw value, the clock
advancing by one minute between calls. -/
def ingest_n (sid : Nat) (value : ℚ) (quality : ReadingQuality) :
    Nat → State → ℚ → Option State
  | 0, st, _ => some st
  | n + 1, st, t =>
    match log_reading st sid value quality t with
    | none => none
    | some (st', _) => ingest_n sid value quality n st' (t + 1)

/-! ## Helper lemmas -/

/-- A list of readings already ascending by timestamp is untouched by
`readings_by_time`. -/
theorem readings_by_time_of_sorted {l : List Reading}
    (h : l.Pairwise (fun a b => a.timestamp ≤ b.timestamp)) :
    readings_by_time l = l :=
  List.Sorted.insertionSort_eq h

/-- The Bessel-corrected sample variance is nonnegative. -/
theorem sampleVariance_nonneg (l : List ℚ) : 0 ≤ sampleVariance l := by
  unfold sampleVariance
  rcases l with _ | ⟨a, l'⟩
  · simp
  · apply div_nonneg
    · apply List.sum_nonneg
      intro x hx
      simp only [List.mem_map] at hx
      obtain ⟨y, -, rfl⟩ := hx
      positivity
    · simp only [List.length_cons]
      push_cast
      linarith [Nat.cast_nonneg (α := ℚ) l'.length]

/-- `statistics.stdev` vanishes exactly on zero sample variance. -/
theorem stdev_eq_zero_iff (l : List ℚ) : stdev l = 0 ↔ sampleVariance l = 0 := by
  unfold stdev
  rw [Real.sqrt_eq_zero (by exact_mod_cast sampleVariance_nonneg l)]
  norm_cast

/-- Sorting a sorted list with one late element appended keeps that
element last. -/
theorem getLast_sorted_append {l : List Reading} {r : Reading}
    (hsorted : l.Pairwise (fun a b => a.timestamp ≤ b.timestamp))
    (hbound : ∀ x ∈ l, x.timestamp ≤ r.timestamp) :
    (readings_by_time (l ++ [r])).getLast? = some r := by
  rw [readings_by_time_of_sorted, List.getLast?_concat]
  exact List.pairwise_append.mpr
    ⟨hsorted, List.pairwise_singleton _ _, fun a ha b hb => by
      rw [List.mem_singleton] at hb
      exact hb ▸ hbound a ha⟩

/-- After appending a reading of the sensor that is at least as late as
everything before it, `get_current` returns that reading. -/
theorem get_current_concat {st1 : State} {l : List Reading} {r : Reading} {sid : Nat}
    (hst : st1.readings = l ++ [r]) (hr : r.sensor_id = sid)
    (hsorted : (l.filter (fun x => x.sensor_id == sid)).Pairwise
      (fun a b => a.timestamp ≤ b.timestamp))
    (hbound : ∀ x ∈ l, x.sensor_id = sid → x.timestamp ≤ r.timestamp) :
    get_current st1 sid = some r := by
  unfold get_current
  rw [hst, List.filter_append]
  have hfr : List.filter (fun x => x.sensor_id == sid) [r] = [r] := by
    simp [hr]
  rw [hfr]
  apply getLast_sorted_append hsorted
  intro x hx
  rw [List.mem_filter] at hx
  exact hbound x hx.1 (by simpa using hx.2)

/-- When no alert carries the requested id, the `UPDATE` of
`resolve_alert` rewrites nothing. -/
theorem resolve_update_id (st : State) (aid : Nat) (now : ℚ)
    (h : st.alerts.find? (fun a => a.id == aid) = none) :
    st.alerts.map (fun a =>
      if a.id == aid then { a with resolved_at := some now } else a) = st.alerts := by
  rw [List.find?_eq_none] at h
  have : ∀ a ∈ st.alerts,
      (if a.id == aid then { a with resolved_at := some now } else a) = id a :=
    fun a ha => if_neg (by simpa using h a ha)
  rw [List.map_congr_left this, List.map_id]

/-- The row update of `resolve_alert` preserves every alert's id. -/
theorem resolve_update_pred (aid : Nat) (now : ℚ) :
    (fun a : Alert => a.id == aid) ∘ (fun a =>
      if a.id == aid then { a with resolved_at := some now } else a) =
    (fun a : Alert => a.id == aid) := by
  funext a
  by_cases h : a.id = aid <;> simp [h]

/-- `resolve_alert` on an id that is present: the matching rows get
`resolved_at = now`, and the first of them is returned. -/
theorem resolve_alert_found (st : State) (aid : Nat) (now : ℚ) (a0 : Alert)
    (h : st.alerts.find? (fun a => a.id == aid) = some a0) :
    resolve_alert st aid now =
      some ({ st with alerts := st.alerts.map (fun a =>
          if a.id == aid then { a with resolved_at := some now } else a) },
        { a0 with resolved_at := some now }) := by
  unfold resolve_alert
  have hfind : (st.alerts.map (fun a =>
      if a.id == aid then { a with resolved_at := some now } else a)).find?
      (fun a => a.id == aid) = some { a0 with resolved_at := some now } := by
    rw [List.find?_map, resolve_update_pred, h]
    have hp : a0.id == aid := by simpa using List.find?_some h
    simp [Option.map, hp]
  simp only [hfind]

/-- `resolve_alert` on an unknown id fails. -/
theorem resolve_alert_not_found (st : State) (aid : Nat) (now : ℚ)
    (h : st.alerts.find? (fun a => a.id == aid) = none) :
    resolve_alert st aid now = none := by
  unfold resolve_alert
  simp only [resolve_update_id st aid now h, h]

/-- Unfolding `log_reading` once the sensor lookup has succeeded. -/
theorem log_reading_eq (st : State) (sid : Nat) (v : ℚ) (q : ReadingQuality)
    (now : ℚ) (s : Sensor) (hs : get_sensor st sid = some s) :
    log_reading st sid v q now =
      match check_thresholds { st with
          readings := st.readings ++ [⟨st.nextId, sid, v, v + s.calibration_offset, now, q⟩],
          nextId := st.nextId + 1 } sid now with
      | none => none
      | some (st2, _) =>
          some (st2, ⟨st.nextId, sid, v, v + s.calibration_offset, now, q⟩) := by
  unfold log_reading
  rw [hs]

/-- Unfolding `check_thresholds` once the current reading and the sensor
are known. -/
theorem check_thresholds_eq (st : State) (sid : Nat) (now : ℚ)
    (r : Reading) (s : Sensor)
    (hcur : get_current st sid = some r) (hsen : get_sensor st sid = some s) :
    check_thresholds st sid now =
      if r.calibrated_value < s.min_value then
        some (⟨st.sensors, st.readings, st.alerts ++ [⟨st.nextId, sid,
            AlertType.threshold, AlertSeverity.critical,
            below_min_msg r.calibrated_value s.min_value, now, none⟩],
            st.nextId + 1⟩,
          some ⟨st.nextId, sid, AlertType.threshold, AlertSeverity.critical,
            below_min_msg r.calibrated_value s.min_value, now, none⟩)
      else if s.max_value < r.calibrated_value then
        some (⟨st.sensors, st.readings, st.alerts ++ [⟨st.nextId, sid,
            AlertType.threshold, AlertSeverity.critical,
            above_max_msg r.calibrated_value s.max_value, now, none⟩],
            st.nextId + 1⟩,
          some ⟨st.nextId, sid, AlertType.threshold, AlertSeverity.critical,
            above_max_msg r.calibrated_value s.max_value, now, none⟩)
      else some (st, none) := by
  unfold check_thresholds create_alert
  rw [hcur, hsen]

/-- Any successful `check_thresholds` call leaves readings and sensors
alone and appends at most one alert, necessarily a CRITICAL threshold
alert for this sensor. -/
theorem check_thresholds_state (st : State) (sid : Nat) (now : ℚ)
    (p : State × Option Alert) (h : check_thresholds st sid now = some p) :
    p.1.readings = st.readings ∧ p.1.sensors = st.sensors ∧
    (p.1.alerts = st.alerts ∨ ∃ a, p.1.alerts = st.alerts ++ [a] ∧
      a.type = AlertType.threshold ∧ a.severity = AlertSeverity.critical ∧
      a.sensor_id = sid) := by
  cases hcur : get_current st sid with
  | none =>
      unfold check_thresholds at h
      rw [hcur] at h
      simp only [Option.some.injEq] at h
      rw [← h]
      exact ⟨rfl, rfl, Or.inl rfl⟩
  | some r =>
      cases hsen : get_sensor st sid with
      | none =>
          unfold check_thresholds at h
          rw [hcur, hsen] at h
          cases h
      | some s =>
          rw [check_thresholds_eq st sid now r s hcur hsen] at h
          split_ifs at h with h1 h2 <;>
            simp only [Option.some.injEq] at h <;> rw [← h]
          · exact ⟨rfl, rfl, Or.inr ⟨_, rfl, rfl, rfl, rfl⟩⟩
          · exact ⟨rfl, rfl, Or.inr ⟨_, rfl, rfl, rfl, rfl⟩⟩
          · exact ⟨rfl, rfl, Or.inl rfl⟩

/-! ## Claims -/

/-- **C2**: `detect_anomaly` returns none and creates no alert whenever
fewer than 5 qualifying points exist (non-error readings in the window)
or the sample standard deviation of the qualifying values is exactly 0
(equivalently, by `stdev_eq_zero_iff`, the sample variance is 0). -/
theorem detect_anomaly_insufficient_or_flat (st : State) (sid : Nat)
    (window z_threshold now : ℚ)
    (h : (anomaly_values st sid window now).length < 5 ∨
      sampleVariance (anomaly_values st sid window now) = 0) :
    detect_anomaly st sid window z_threshold now = (st, none) := by
  unfold detect_anomaly
  by_cases h5 : (anomaly_values st sid window now).length < 5
  · simp [h5]
  · have hv : sampleVariance (anomaly_values st sid window now) = 0 :=
      h.resolve_left h5
    have hsd : stdev (anomaly_values st sid window now) = 0 :=
      (stdev_eq_zero_iff _).mpr hv
    simp [h5, hsd]

/-- Witness for C2: the empty store has no qualifying points, and
`detect_anomaly` leaves it alone. -/
theorem detect_anomaly_insufficient_or_flat_witness :
    ((anomaly_values initState 0 60 0).length < 5 ∨
      sampleVariance (anomaly_values initState 0 60 0) = 0) ∧
    detect_anomaly initState 0 60 (5 / 2) 0 = (initState, none) :=
  ⟨Or.inl (by decide),
   detect_anomaly_insufficient_or_flat initState 0 60 (5 / 2) 0 (Or.inl (by decide))⟩

/-- **C5** (counterexample): `add_sensor` performs no range validation —
registering a sensor with `min_value = 1 > 0 = max_value` succeeds and
stores the ill-ordered range. -/
theorem add_sensor_stores_ill_ordered_range :
    ((add_sensor initState "dev" SensorType.temperature "C" (some 1) (some 0)
        0 none none).2.max_value <
      (add_sensor initState "dev" SensorType.temperature "C" (some 1) (some 0)
        0 none none).2.min_value) ∧
    (add_sensor initState "dev" SensorType.temperature "C" (some 1) (some 0)
        0 none none).2 ∈
      (add_sensor initState "dev" SensorType.temperature "C" (some 1) (some 0)
        0 none none).1.sensors := by
  refine ⟨by decide, ?_⟩
  simp [add_sensor, initState]

/-- **C5** (amended): the default range table is well-ordered for every
sensor type, so a sensor registered with both bounds omitted always
satisfies `min_value ≤ max_value`; but `add_sensor` itself never
validates caller-supplied bounds (no `ValidationError` exists in the
code — its total return type reflects that it cannot reject). -/
theorem add_sensor_default_range_ordered :
    (∀ t : SensorType, (DEFAULT_THRESHOLDS t).1 ≤ (DEFAULT_THRESHOLDS t).2) ∧
    (∀ (st : State) (d : String) (t : SensorType) (u : String) (off : ℚ)
        (nm loc : Option String),
      (add_sensor st d t u none none off nm loc).2.min_value ≤
        (add_sensor st d t u none none off nm loc).2.max_value) := by
  constructor
  · intro t
    cases t <;> norm_num [DEFAULT_THRESHOLDS]
  · intro st d t u off nm loc
    cases t <;> norm_num [add_sensor, DEFAULT_THRESHOLDS]

/-- **C6**: `resolve_alert` fails on an unknown id and the store is
untouched (the `UPDATE` matched no row); on a present id it succeeds and
returns the alert with `resolved_at` set to the current time, hence
inactive. -/
theorem resolve_alert_spec (st : State) (aid : Nat) (now : ℚ) :
    (st.alerts.find? (fun a => a.id == aid) = none →
      resolve_alert st aid now = none ∧
      st.alerts.map (fun a =>
        if a.id == aid then { a with resolved_at := some now } else a) = st.alerts) ∧
    (∀ a0, st.alerts.find? (fun a => a.id == aid) = some a0 →
      ∃ st' a, resolve_alert st aid now = some (st', a) ∧
        a.id = a0.id ∧ a.resolved_at = some now ∧ a.is_active = false) := by
  constructor
  · intro h
    exact ⟨resolve_alert_not_found st aid now h, resolve_update_id st aid now h⟩
  · intro a0 h
    refine ⟨_, _, resolve_alert_found st aid now a0 h, rfl, rfl, rfl⟩

/-- Witness for C6, both branches, on a one-alert store. -/
theorem resolve_alert_spec_witness :
    (resolve_alert ⟨[], [], [⟨3, 0, AlertType.threshold, AlertSeverity.critical,
        "m", 0, none⟩], 4⟩ 9 1 = none ∧
      (⟨[], [], [⟨3, 0, AlertType.threshold, AlertSeverity.critical,
        "m", 0, none⟩], 4⟩ : State).alerts.map (fun a =>
        if a.id == 9 then { a with resolved_at := some 1 } else a) =
        (⟨[], [], [⟨3, 0, AlertType.threshold, AlertSeverity.critical,
        "m", 0, none⟩], 4⟩ : State).alerts) ∧
    (∃ st' a, resolve_alert ⟨[], [], [⟨3, 0, AlertType.threshold,
        AlertSeverity.critical, "m", 0, none⟩], 4⟩ 3 1 = some (st', a) ∧
      a.id = (⟨3, 0, AlertType.threshold, AlertSeverity.critical,
        "m", 0, none⟩ : Alert).id ∧
      a.resolved_at = some 1 ∧ a.is_active = false) :=
  ⟨(resolve_alert_spec ⟨[], [], [⟨3, 0, AlertType.threshold,
      AlertSeverity.critical, "m", 0, none⟩], 4⟩ 9 1).1 (by decide),
   (resolve_alert_spec ⟨[], [], [⟨3, 0, AlertType.threshold,
      AlertSeverity.critical, "m", 0, none⟩], 4⟩ 3 1).2
     ⟨3, 0, AlertType.threshold, AlertSeverity.critical, "m", 0, none⟩ (by decide)⟩

/-- **C10**: resolving an already-resolved alert is neither rejected nor
a no-op — it succeeds and overwrites `resolved_at` with the new, later
timestamp; the result is still resolved (never reactivated). -/
theorem resolve_alert_overwrites (st : State) (aid : Nat) (t1 t2 : ℚ) (a0 : Alert)
    (h : st.alerts.find? (fun a => a.id == aid) = some a0)
    (hres : a0.resolved_at = some t1) (hlt : t1 < t2) :
    ∃ st' a, resolve_alert st aid t2 = some (st', a) ∧
      a.resolved_at = some t2 ∧ a.resolved_at ≠ a0.resolved_at ∧
      a.is_active = false := by
  refine ⟨_, _, resolve_alert_found st aid t2 a0 h, rfl, ?_, rfl⟩
  rw [hres]
  simp only [ne_eq, Option.some.injEq]
  exact fun hc => absurd hc (ne_of_gt hlt)

/-- Witness for C10 on an already-resolved alert. -/
theorem resolve_alert_overwrites_witness :
    ∃ st' a, resolve_alert ⟨[], [], [⟨3, 0, AlertType.threshold,
        AlertSeverity.critical, "m", 0, some 1⟩], 4⟩ 3 2 = some (st', a) ∧
      a.resolved_at = some 2 ∧
      a.resolved_at ≠ (⟨3, 0, AlertType.threshold, AlertSeverity.critical,
        "m", 0, some 1⟩ : Alert).resolved_at ∧
      a.is_active = false :=
  resolve_alert_overwrites ⟨[], [], [⟨3, 0, AlertType.threshold,
      AlertSeverity.critical, "m", 0, some 1⟩], 4⟩ 3 1 2
    ⟨3, 0, AlertType.threshold, AlertSeverity.critical, "m", 0, some 1⟩
    (by decide) rfl (by norm_num)

/-- **C4**: the reading stored by `log_reading` carries
`calibrated_value = raw_value + calibration_offset` with the offset the
sensor had at the moment of ingestion, and `update_calibration` leaves
the stored readings (every field of every row) untouched — calibrated
values are never re-derived from a new offset. -/
theorem calibration_captured_at_ingestion (st : State) (sid : Nat) (v : ℚ)
    (q : ReadingQuality) (now : ℚ) (s : Sensor)
    (hs : get_sensor st sid = some s) :
    (∀ st' r, log_reading st sid v q now = some (st', r) →
      r.raw_value = v ∧ r.calibrated_value = v + s.calibration_offset ∧
      r ∈ st'.readings) ∧
    (∀ off : ℚ, (update_calibration st sid off).1.readings = st.readings) := by
  refine ⟨?_, fun off => rfl⟩
  intro st' r hlog
  rw [log_reading_eq st sid v q now s hs] at hlog
  cases hct : check_thresholds { st with
      readings := st.readings ++ [⟨st.nextId, sid, v, v + s.calibration_offset, now, q⟩],
      nextId := st.nextId + 1 } sid now with
  | none => rw [hct] at hlog; cases hlog
  | some p =>
      obtain ⟨st2, oa⟩ := p
      rw [hct] at hlog
      simp only [Option.some.injEq, Prod.mk.injEq] at hlog
      obtain ⟨hst', hr⟩ := hlog
      obtain ⟨hrd, -, -⟩ := check_thresholds_state _ sid now _ hct
      subst hst' hr
      refine ⟨rfl, rfl, ?_⟩
      rw [hrd]
      simp

/-- Witness for C4 on a one-sensor store with offset `3/2`. -/
theorem calibration_captured_at_ingestion_witness :
    (∀ st' r, log_reading ⟨[⟨0, "d", SensorType.temperature, "C", 0, 10, 3 / 2,
        none, none⟩], [], [], 1⟩ 0 2 ReadingQuality.good 0 = some (st', r) →
      r.raw_value = 2 ∧
      r.calibrated_value = 2 + (⟨0, "d", SensorType.temperature, "C", 0, 10, 3 / 2,
        none, none⟩ : Sensor).calibration_offset ∧
      r ∈ st'.readings) ∧
    (∀ off : ℚ, (update_calibration ⟨[⟨0, "d", SensorType.temperature, "C", 0, 10,
        3 / 2, none, none⟩], [], [], 1⟩ 0 off).1.readings =
      (⟨[⟨0, "d", SensorType.temperature, "C", 0, 10, 3 / 2, none, none⟩], [], [],
        1⟩ : State).readings) :=
  calibration_captured_at_ingestion
    ⟨[⟨0, "d", SensorType.temperature, "C", 0, 10, 3 / 2, none, none⟩], [], [], 1⟩
    0 2 ReadingQuality.good 0
    ⟨0, "d", SensorType.temperature, "C", 0, 10, 3 / 2, none, none⟩ rfl

/-- **C8**: one `log_reading` call creates at most one alert, and when it
does the alert has type `threshold` — ingestion never produces an
`anomaly` alert, so any anomaly alert present after the call was already
there before it. -/
theorem log_reading_never_anomaly (st : State) (sid : Nat) (v : ℚ)
    (q : ReadingQuality) (now : ℚ) (st' : State) (r : Reading)
    (h : log_reading st sid v q now = some (st', r)) :
    (st'.alerts = st.alerts ∨ ∃ a, st'.alerts = st.alerts ++ [a] ∧
      a.type = AlertType.threshold) ∧
    (∀ a ∈ st'.alerts, a.type = AlertType.anomaly → a ∈ st.alerts) := by
  cases hs : get_sensor st sid with
  | none => unfold log_reading at h; rw [hs] at h; cases h
  | some s =>
      rw [log_reading_eq st sid v q now s hs] at h
      cases hct : check_thresholds { st with
          readings := st.readings ++ [⟨st.nextId, sid, v, v + s.calibration_offset, now, q⟩],
          nextId := st.nextId + 1 } sid now with
      | none => rw [hct] at h; cases h
      | some p =>
          obtain ⟨st2, oa⟩ := p
          rw [hct] at h
          simp only [Option.some.injEq, Prod.mk.injEq] at h
          obtain ⟨hst', -⟩ := h
          obtain ⟨-, -, halerts⟩ := check_thresholds_state _ sid now _ hct
          subst hst'
          have hmain : st2.alerts = st.alerts ∨ ∃ a, st2.alerts = st.alerts ++ [a] ∧
              a.type = AlertType.threshold := by
            rcases halerts with h0 | ⟨a, ha, hty, -, -⟩
            · exact Or.inl h0
            · exact Or.inr ⟨a, ha, hty⟩
          refine ⟨hmain, ?_⟩
          intro a ha hty
          rcases hmain with h0 | ⟨b, hb, hbty⟩
          · rwa [h0] at ha
          · rw [hb] at ha
            rcases List.mem_append.mp ha with h1 | h1
            · exact h1
            · rw [List.mem_singleton] at h1
              subst h1
              rw [hty] at hbty
              cases hbty

/-- Witness for C8: ingesting an out-of-range value on a one-sensor
store. -/
theorem log_reading_never_anomaly_witness :
    ((⟨[⟨0, "d", SensorType.temperature, "C", 0, 1, 0, none, none⟩],
        [⟨1, 0, 5, 5, 0, ReadingQuality.good⟩],
        [⟨2, 0, AlertType.threshold, AlertSeverity.critical, above_max_msg 5 1, 0,
          none⟩], 3⟩ : State).alerts =
      (⟨[⟨0, "d", SensorType.temperature, "C", 0, 1, 0, none, none⟩], [], [],
        1⟩ : State).alerts ∨
      ∃ a, (⟨[⟨0, "d", SensorType.temperature, "C", 0, 1, 0, none, none⟩],
        [⟨1, 0, 5, 5, 0, ReadingQuality.good⟩],
        [⟨2, 0, AlertType.threshold, AlertSeverity.critical, above_max_msg 5 1, 0,
          none⟩], 3⟩ : State).alerts =
        (⟨[⟨0, "d", SensorType.temperature, "C", 0, 1, 0, none, none⟩], [], [],
          1⟩ : State).alerts ++ [a] ∧ a.type = AlertType.threshold) ∧
    (∀ a ∈ (⟨[⟨0, "d", SensorType.temperature, "C", 0, 1, 0, none, none⟩],
        [⟨1, 0, 5, 5, 0, ReadingQuality.good⟩],
        [⟨2, 0, AlertType.threshold, AlertSeverity.critical, above_max_msg 5 1, 0,
          none⟩], 3⟩ : State).alerts, a.type = AlertType.anomaly →
      a ∈ (⟨[⟨0, "d", SensorType.temperature, "C", 0, 1, 0, none, none⟩], [], [],
        1⟩ : State).alerts) :=
  log_reading_never_anomaly
    ⟨[⟨0, "d", SensorType.temperature, "C", 0, 1, 0, none, none⟩], [], [], 1⟩
    0 5 ReadingQuality.good 0
    ⟨[⟨0, "d", SensorType.temperature, "C", 0, 1, 0, none, none⟩],
      [⟨1, 0, 5, 5, 0, ReadingQuality.good⟩],
      [⟨2, 0, AlertType.threshold, AlertSeverity.critical, above_max_msg 5 1, 0,
        none⟩], 3⟩
    ⟨1, 0, 5, 5, 0, ReadingQuality.good⟩
    (by norm_num [log_reading, get_sensor, List.find?, check_thresholds,
      get_current, readings_by_time, List.insertionSort, List.orderedInsert,
      create_alert])

/-- **C1**: an ingestion via `log_reading` whose calibrated value lies
strictly below `min_value` or strictly above `max_value` creates exactly
one new alert, of type `threshold` and severity CRITICAL; a calibrated
value inside `[min_value, max_value]` — boundary included — creates
none.  (The timestamp hypotheses say the ingestion clock did not run
backwards, which `datetime.now(timezone.utc)` guarantees.) -/
theorem log_reading_threshold_spec (st : State) (sid : Nat) (v : ℚ)
    (q : ReadingQuality) (now : ℚ) (s : Sensor)
    (hs : get_sensor st sid = some s)
    (hsorted : (st.readings.filter (fun x => x.sensor_id == sid)).Pairwise
      (fun a b => a.timestamp ≤ b.timestamp))
    (hbound : ∀ x ∈ st.readings, x.sensor_id = sid → x.timestamp ≤ now) :
    ∃ st' r, log_reading st sid v q now = some (st', r) ∧
      r.calibrated_value = v + s.calibration_offset ∧
      ((r.calibrated_value < s.min_value ∨ s.max_value < r.calibrated_value) →
        ∃ a, st'.alerts = st.alerts ++ [a] ∧ a.type = AlertType.threshold ∧
          a.severity = AlertSeverity.critical ∧ a.sensor_id = sid) ∧
      (s.min_value ≤ r.calibrated_value → r.calibrated_value ≤ s.max_value →
        st'.alerts = st.alerts) := by
  have hcur : get_current { st with
      readings := st.readings ++ [⟨st.nextId, sid, v, v + s.calibration_offset, now, q⟩],
      nextId := st.nextId + 1 } sid =
      some ⟨st.nextId, sid, v, v + s.calibration_offset, now, q⟩ :=
    get_current_concat rfl rfl hsorted hbound
  have hsen1 : get_sensor { st with
      readings := st.readings ++ [⟨st.nextId, sid, v, v + s.calibration_offset, now, q⟩],
      nextId := st.nextId + 1 } sid = some s := hs
  rw [log_reading_eq st sid v q now s hs, check_thresholds_eq _ sid now _ s hcur hsen1]
  by_cases h1 : v + s.calibration_offset < s.min_value
  · rw [if_pos h1]
    exact ⟨_, _, rfl, rfl, fun _ => ⟨_, rfl, rfl, rfl, rfl⟩,
      fun hlo _ => absurd h1 (not_lt.mpr hlo)⟩
  · rw [if_neg h1]
    by_cases h2 : s.max_value < v + s.calibration_offset
    · rw [if_pos h2]
      exact ⟨_, _, rfl, rfl, fun _ => ⟨_, rfl, rfl, rfl, rfl⟩,
        fun _ hhi => absurd h2 (not_lt.mpr hhi)⟩
    · rw [if_neg h2]
      exact ⟨_, _, rfl, rfl, fun hout => absurd hout (by
        push_neg
        exact ⟨not_lt.mp h1, not_lt.mp h2⟩), fun _ _ => rfl⟩

/-- Witness for C1: a fresh sensor with range `[0, 1]` and no prior
readings. -/
theorem log_reading_threshold_spec_witness :
    ∃ st' r, log_reading
        ⟨[⟨0, "d", SensorType.temperature, "C", 0, 1, 0, none, none⟩], [], [], 1⟩
        0 5 ReadingQuality.good 0 = some (st', r) ∧
      r.calibrated_value = 5 + (⟨0, "d", SensorType.temperature, "C", 0, 1, 0,
        none, none⟩ : Sensor).calibration_offset ∧
      ((r.calibrated_value < (⟨0, "d", SensorType.temperature, "C", 0, 1, 0,
          none, none⟩ : Sensor).min_value ∨
        (⟨0, "d", SensorType.temperature, "C", 0, 1, 0, none,
          none⟩ : Sensor).max_value < r.calibrated_value) →
        ∃ a, st'.alerts = (⟨[⟨0, "d", SensorType.temperature, "C", 0, 1, 0, none,
            none⟩], [], [], 1⟩ : State).alerts ++ [a] ∧
          a.type = AlertType.threshold ∧
          a.severity = AlertSeverity.critical ∧ a.sensor_id = 0) ∧
      ((⟨0, "d", SensorType.temperature, "C", 0, 1, 0, none,
          none⟩ : Sensor).min_value ≤ r.calibrated_value →
        r.calibrated_value ≤ (⟨0, "d", SensorType.temperature, "C", 0, 1, 0,
          none, none⟩ : Sensor).max_value →
        st'.alerts = (⟨[⟨0, "d", SensorType.temperature, "C", 0, 1, 0, none,
          none⟩], [], [], 1⟩ : State).alerts) :=
  log_reading_threshold_spec
    ⟨[⟨0, "d", SensorType.temperature, "C", 0, 1, 0, none, none⟩], [], [], 1⟩
    0 5 ReadingQuality.good 0
    ⟨0, "d", SensorType.temperature, "C", 0, 1, 0, none, none⟩
    rfl (by simp) (by simp)

/-- Appending an `error`-quality reading never changes the sample
`get_stats` aggregates over (for any window end and length). -/
theorem stats_values_append_error (st1 st2 : State) (sid : Nat) (r0 : Reading)
    (h12 : st2.readings = st1.readings ++ [r0])
    (hq : r0.quality = ReadingQuality.error)
    (hsorted : st1.readings.Pairwise (fun a b => a.timestamp ≤ b.timestamp))
    (hbound : ∀ x ∈ st1.readings, x.timestamp ≤ r0.timestamp) :
    ∀ hours t, stats_values st2 sid hours t = stats_values st1 sid hours t := by
  intro hours t
  unfold stats_values get_history
  dsimp only
  rw [h12, List.filter_append]
  by_cases hpass : (r0.sensor_id == sid && decide (t - 60 * hours ≤ r0.timestamp)) = true
  · have hfr : List.filter (fun r =>
        r.sensor_id == sid && decide (t - 60 * hours ≤ r.timestamp)) [r0] = [r0] := by
      simp only [List.filter, hpass]
    rw [hfr]
    have hsub : (st1.readings.filter (fun r =>
        r.sensor_id == sid && decide (t - 60 * hours ≤ r.timestamp))).Pairwise
        (fun a b => a.timestamp ≤ b.timestamp) :=
      hsorted.sublist (List.filter_sublist _)
    have hb : ∀ x ∈ st1.readings.filter (fun r =>
        r.sensor_id == sid && decide (t - 60 * hours ≤ r.timestamp)),
        x.timestamp ≤ r0.timestamp := by
      intro x hx
      exact hbound x (List.mem_of_mem_filter hx)
    rw [readings_by_time_of_sorted (List.pairwise_append.mpr
      ⟨hsub, List.pairwise_singleton _ _, fun a ha b hb2 => by
        rw [List.mem_singleton] at hb2
        exact hb2 ▸ hb a ha⟩)]
    rw [readings_by_time_of_sorted hsub, List.filter_append]
    have : List.filter (fun r => r.quality != ReadingQuality.error) [r0] = [] := by
      simp [hq]
    rw [this, List.append_nil]
  · have hfr : List.filter (fun r =>
        r.sensor_id == sid && decide (t - 60 * hours ≤ r.timestamp)) [r0] = [] := by
      simp only [List.filter, Bool.not_eq_true] at hpass ⊢
      rw [hpass]
    rw [hfr, List.append_nil]

/-- Appending an `error`-quality reading never changes the sample
`detect_anomaly` works on: its query filters `quality != 'error'`. -/
theorem anomaly_values_append_error (st1 st2 : State) (sid : Nat) (r0 : Reading)
    (h12 : st2.readings = st1.readings ++ [r0])
    (hq : r0.quality = ReadingQuality.error) :
    ∀ window t, anomaly_values st2 sid window t = anomaly_values st1 sid window t := by
  intro window t
  unfold anomaly_values
  dsimp only
  rw [h12, List.filter_append]
  have hfr : List.filter (fun r => r.sensor_id == sid &&
      decide (t - window ≤ r.timestamp) && r.quality != ReadingQuality.error) [r0]
      = [] := by
    simp [hq]
  rw [hfr, List.append_nil]

/-- **C9**: a reading of quality `error` is stored by `log_reading` like
any other reading, yet it changes neither the sample `get_stats`
aggregates (so none of count/min/max/avg/stddev) nor the sample
`detect_anomaly` evaluates, for every window. -/
theorem error_reading_stored_excluded (st : State) (sid : Nat) (v now : ℚ)
    (s : Sensor) (hs : get_sensor st sid = some s)
    (hsorted : st.readings.Pairwise (fun a b => a.timestamp ≤ b.timestamp))
    (hbound : ∀ x ∈ st.readings, x.timestamp ≤ now) :
    ∃ st' r, log_reading st sid v ReadingQuality.error now = some (st', r) ∧
      r ∈ st'.readings ∧ r.quality = ReadingQuality.error ∧
      (∀ hours t, stats_values st' sid hours t = stats_values st sid hours t) ∧
      (∀ hours t, get_stats st' sid hours t = get_stats st sid hours t) ∧
      (∀ window t, anomaly_values st' sid window t = anomaly_values st sid window t) := by
  have hcur : get_current { st with
      readings := st.readings ++ [⟨st.nextId, sid, v, v + s.calibration_offset, now,
        ReadingQuality.error⟩],
      nextId := st.nextId + 1 } sid =
      some ⟨st.nextId, sid, v, v + s.calibration_offset, now, ReadingQuality.error⟩ :=
    get_current_concat rfl rfl (hsorted.sublist (List.filter_sublist _))
      (fun x hx _ => hbound x hx)
  have hsen1 : get_sensor { st with
      readings := st.readings ++ [⟨st.nextId, sid, v, v + s.calibration_offset, now,
        ReadingQuality.error⟩],
      nextId := st.nextId + 1 } sid = some s := hs
  have hex : ∃ p, check_thresholds { st with
      readings := st.readings ++ [⟨st.nextId, sid, v, v + s.calibration_offset, now,
        ReadingQuality.error⟩],
      nextId := st.nextId + 1 } sid now = some p := by
    rw [check_thresholds_eq _ sid now _ s hcur hsen1]
    split_ifs <;> exact ⟨_, rfl⟩
  obtain ⟨⟨st2, oa⟩, hct⟩ := hex
  obtain ⟨hrd, -, -⟩ := check_thresholds_state _ sid now _ hct
  have hrd' : st2.readings = st.readings ++ [⟨st.nextId, sid, v,
      v + s.calibration_offset, now, ReadingQuality.error⟩] := hrd
  refine ⟨st2, ⟨st.nextId, sid, v, v + s.calibration_offset, now,
    ReadingQuality.error⟩, ?_, ?_, rfl, ?_, ?_, ?_⟩
  · rw [log_reading_eq st sid v ReadingQuality.error now s hs, hct]
  · rw [hrd']
    simp
  · exact stats_values_append_error st st2 sid _ hrd' rfl hsorted
      (fun x hx => hbound x hx)
  · intro hours t
    have hsv := stats_values_append_error st st2 sid _ hrd' rfl hsorted
      (fun x hx => hbound x hx) hours t
    unfold get_stats
    rw [hsv]
  · exact anomaly_values_append_error st st2 sid _ hrd' rfl

/-- Witness for C9 on a one-sensor store. -/
theorem error_reading_stored_excluded_witness :
    ∃ st' r, log_reading
        ⟨[⟨0, "d", SensorType.temperature, "C", 0, 10, 0, none, none⟩], [], [], 1⟩
        0 3 ReadingQuality.error 0 = some (st', r) ∧
      r ∈ st'.readings ∧ r.quality = ReadingQuality.error ∧
      (∀ hours t, stats_values st' 0 hours t = stats_values
        ⟨[⟨0, "d", SensorType.temperature, "C", 0, 10, 0, none, none⟩], [], [], 1⟩
        0 hours t) ∧
      (∀ hours t, get_stats st' 0 hours t = get_stats
        ⟨[⟨0, "d", SensorType.temperature, "C", 0, 10, 0, none, none⟩], [], [], 1⟩
        0 hours t) ∧
      (∀ window t, anomaly_values st' 0 window t = anomaly_values
        ⟨[⟨0, "d", SensorType.temperature, "C", 0, 10, 0, none, none⟩], [], [], 1⟩
        0 window t) :=
  error_reading_stored_excluded
    ⟨[⟨0, "d", SensorType.temperature, "C", 0, 10, 0, none, none⟩], [], [], 1⟩
    0 3 0 ⟨0, "d", SensorType.temperature, "C", 0, 10, 0, none, none⟩
    rfl (by simp) (by simp)

/-- `statistics.stdev` is nonnegative. -/
theorem stdev_nonneg (l : List ℚ) : 0 ≤ stdev l := by
  unfold stdev
  exact Real.sqrt_nonneg _

/-- Unfolding `detect_anomaly` once the two guards have passed. -/
theorem detect_anomaly_active_eq (st : State) (sid : Nat)
    (window z_threshold now : ℚ)
    (h5 : ¬ (anomaly_values st sid window now).length < 5)
    (hsd : stdev (anomaly_values st sid window now) ≠ 0) :
    detect_anomaly st sid window z_threshold now =
      if (z_threshold : ℝ) < zscore (anomaly_values st sid window now) then
        (⟨st.sensors, st.readings, st.alerts ++ [⟨st.nextId, sid, AlertType.anomaly,
            if (z_threshold : ℝ) * 1.5 < zscore (anomaly_values st sid window now)
              then AlertSeverity.critical else AlertSeverity.warning,
            "Anomaly: value=" ++ toString ((anomaly_values st sid window now).getLastD 0),
            now, none⟩], st.nextId + 1⟩,
          some ⟨st.nextId, sid, AlertType.anomaly,
            if (z_threshold : ℝ) * 1.5 < zscore (anomaly_values st sid window now)
              then AlertSeverity.critical else AlertSeverity.warning,
            "Anomaly: value=" ++ toString ((anomaly_values st sid window now).getLastD 0),
            now, none⟩)
      else (st, none) := by
  unfold detect_anomaly create_alert
  dsimp only
  rw [if_neg h5, if_neg hsd]

/-- **C3**: with at least 5 qualifying points of nonzero variance,
`detect_anomaly` computes `z = |latest − mean| / stddev` with the
Bessel-corrected sample standard deviation over all qualifying values
(`stddev² · (n−1) = Σ (x − mean)²`), emits an anomaly alert iff
`z > z_threshold`, and grades it CRITICAL exactly when
`z > 1.5 · z_threshold`, WARNING otherwise. -/
theorem detect_anomaly_zscore_spec (st : State) (sid : Nat)
    (window z_threshold now : ℚ)
    (h5 : 5 ≤ (anomaly_values st sid window now).length)
    (hv : sampleVariance (anomaly_values st sid window now) ≠ 0) :
    zscore (anomaly_values st sid window now) =
      |((anomaly_values st sid window now).getLastD 0 : ℝ) -
        (mean (anomaly_values st sid window now) : ℝ)| /
        stdev (anomaly_values st sid window now) ∧
    stdev (anomaly_values st sid window now) ^ 2 *
        (((anomaly_values st sid window now).length : ℝ) - 1) =
      (((((anomaly_values st sid window now).map
        (fun x => (x - mean (anomaly_values st sid window now)) ^ 2)).sum : ℚ)) : ℝ) ∧
    ((detect_anomaly st sid window z_threshold now).2.isSome ↔
      (z_threshold : ℝ) < zscore (anomaly_values st sid window now)) ∧
    (∀ a, (detect_anomaly st sid window z_threshold now).2 = some a →
      a.type = AlertType.anomaly ∧ a.sensor_id = sid ∧
      (a.severity = AlertSeverity.critical ↔
        (z_threshold : ℝ) * 1.5 < zscore (anomaly_values st sid window now)) ∧
      (a.severity = AlertSeverity.warning ↔
        ¬ (z_threshold : ℝ) * 1.5 < zscore (anomaly_values st sid window now))) := by
  have hlen5 : ¬ (anomaly_values st sid window now).length < 5 := not_lt.mpr h5
  have hsd : stdev (anomaly_values st sid window now) ≠ 0 := by
    rw [Ne, stdev_eq_zero_iff]
    exact hv
  refine ⟨?_, ?_, ?_, ?_⟩
  · unfold zscore
    rw [abs_div, abs_of_nonneg (stdev_nonneg _)]
  · have hne : (((anomaly_values st sid window now).length : ℚ) - 1) ≠ 0 := by
      have h5q : (5 : ℚ) ≤ ((anomaly_values st sid window now).length : ℚ) := by
        exact_mod_cast h5
      intro hcontra
      rw [sub_eq_zero] at hcontra
      rw [hcontra] at h5q
      norm_num at h5q
    have hqq : sampleVariance (anomaly_values st sid window now) *
        (((anomaly_values st sid window now).length : ℚ) - 1) =
        ((anomaly_values st sid window now).map
          (fun x => (x - mean (anomaly_values st sid window now)) ^ 2)).sum := by
      unfold sampleVariance
      exact div_mul_cancel₀ _ hne
    calc stdev (anomaly_values st sid window now) ^ 2 *
          (((anomaly_values st sid window now).length : ℝ) - 1)
        = ((sampleVariance (anomaly_values st sid window now) : ℚ) : ℝ) *
          (((anomaly_values st sid window now).length : ℝ) - 1) := by
          unfold stdev
          rw [Real.sq_sqrt (by exact_mod_cast sampleVariance_nonneg _)]
      _ = (((sampleVariance (anomaly_values st sid window now) *
          (((anomaly_values st sid window now).length : ℚ) - 1)) : ℚ) : ℝ) := by
          push_cast
          ring
      _ = _ := by rw [hqq]
  · rw [detect_anomaly_active_eq st sid window z_threshold now hlen5 hsd]
    by_cases hz : (z_threshold : ℝ) < zscore (anomaly_values st sid window now)
    · simp [hz]
    · simp [hz]
  · rw [detect_anomaly_active_eq st sid window z_threshold now hlen5 hsd]
    by_cases hz : (z_threshold : ℝ) < zscore (anomaly_values st sid window now)
    · rw [if_pos hz]
      intro a ha
      simp only [Option.some.injEq] at ha
      subst ha
      refine ⟨rfl, rfl, ?_, ?_⟩ <;>
        by_cases hc : (z_threshold : ℝ) * 1.5 <
          zscore (anomaly_values st sid window now) <;>
        simp [hc]
    · rw [if_neg hz]
      intro a ha
      cases ha

/-- Evaluating the anomaly sample on the concrete witness store: five
good readings with calibrated values `[0, 0, 0, 0, 1]`. -/
theorem anomaly_values_witness_eval :
    anomaly_values ⟨[⟨0, "d", SensorType.temperature, "C", -100, 100, 0, none,
        none⟩],
      [⟨1, 0, 0, 0, 0, ReadingQuality.good⟩, ⟨2, 0, 0, 0, 1, ReadingQuality.good⟩,
       ⟨3, 0, 0, 0, 2, ReadingQuality.good⟩, ⟨4, 0, 0, 0, 3, ReadingQuality.good⟩,
       ⟨5, 0, 1, 1, 4, ReadingQuality.good⟩], [], 6⟩ 0 60 4 = [0, 0, 0, 0, 1] := by
  norm_num [anomaly_values, readings_by_time, List.insertionSort,
    List.orderedInsert, List.filter]

/-- Witness for C3 on the `[0, 0, 0, 0, 1]` sample. -/
theorem detect_anomaly_zscore_spec_witness :
    (5 ≤ (anomaly_values ⟨[⟨0, "d", SensorType.temperature, "C", -100, 100, 0,
        none, none⟩],
      [⟨1, 0, 0, 0, 0, ReadingQuality.good⟩, ⟨2, 0, 0, 0, 1, ReadingQuality.good⟩,
       ⟨3, 0, 0, 0, 2, ReadingQuality.good⟩, ⟨4, 0, 0, 0, 3, ReadingQuality.good⟩,
       ⟨5, 0, 1, 1, 4, ReadingQuality.good⟩], [], 6⟩ 0 60 4).length) ∧
    (sampleVariance (anomaly_values ⟨[⟨0, "d", SensorType.temperature, "C", -100,
        100, 0, none, none⟩],
      [⟨1, 0, 0, 0, 0, ReadingQuality.good⟩, ⟨2, 0, 0, 0, 1, ReadingQuality.good⟩,
       ⟨3, 0, 0, 0, 2, ReadingQuality.good⟩, ⟨4, 0, 0, 0, 3, ReadingQuality.good⟩,
       ⟨5, 0, 1, 1, 4, ReadingQuality.good⟩], [], 6⟩ 0 60 4) ≠ 0) ∧
    ((detect_anomaly ⟨[⟨0, "d", SensorType.temperature, "C", -100, 100, 0, none,
        none⟩],
      [⟨1, 0, 0, 0, 0, ReadingQuality.good⟩, ⟨2, 0, 0, 0, 1, ReadingQuality.good⟩,
       ⟨3, 0, 0, 0, 2, ReadingQuality.good⟩, ⟨4, 0, 0, 0, 3, ReadingQuality.good⟩,
       ⟨5, 0, 1, 1, 4, ReadingQuality.good⟩], [], 6⟩ 0 60 (5 / 2) 4).2.isSome ↔
      ((5 / 2 : ℚ) : ℝ) < zscore (anomaly_values ⟨[⟨0, "d",
        SensorType.temperature, "C", -100, 100, 0, none, none⟩],
      [⟨1, 0, 0, 0, 0, ReadingQuality.good⟩, ⟨2, 0, 0, 0, 1, ReadingQuality.good⟩,
       ⟨3, 0, 0, 0, 2, ReadingQuality.good⟩, ⟨4, 0, 0, 0, 3, ReadingQuality.good⟩,
       ⟨5, 0, 1, 1, 4, ReadingQuality.good⟩], [], 6⟩ 0 60 4)) :=
  ⟨by rw [anomaly_values_witness_eval]; norm_num,
   by rw [anomaly_values_witness_eval]; norm_num [sampleVariance, mean],
   (detect_anomaly_zscore_spec ⟨[⟨0, "d", SensorType.temperature, "C", -100, 100,
        0, none, none⟩],
      [⟨1, 0, 0, 0, 0, ReadingQuality.good⟩, ⟨2, 0, 0, 0, 1, ReadingQuality.good⟩,
       ⟨3, 0, 0, 0, 2, ReadingQuality.good⟩, ⟨4, 0, 0, 0, 3, ReadingQuality.good⟩,
       ⟨5, 0, 1, 1, 4, ReadingQuality.good⟩], [], 6⟩ 0 60 (5 / 2) 4
      (by rw [anomaly_values_witness_eval]; norm_num)
      (by rw [anomaly_values_witness_eval]; norm_num [sampleVariance, mean])).2.2.1⟩

/-- An out-of-range ingestion in one step: the reading is appended, one
fresh CRITICAL threshold alert is appended, and the id counter advances
by two draws. -/
theorem log_reading_breach (st : State) (sid : Nat) (v : ℚ) (q : ReadingQuality)
    (t : ℚ) (s : Sensor) (hs : get_sensor st sid = some s)
    (hout : v + s.calibration_offset < s.min_value ∨
      s.max_value < v + s.calibration_offset)
    (hsorted : st.readings.Pairwise (fun a b => a.timestamp ≤ b.timestamp))
    (hbound : ∀ x ∈ st.readings, x.timestamp ≤ t) :
    ∃ msg, log_reading st sid v q t = some
      (⟨st.sensors, st.readings ++ [⟨st.nextId, sid, v, v + s.calibration_offset,
          t, q⟩],
        st.alerts ++ [⟨st.nextId + 1, sid, AlertType.threshold,
          AlertSeverity.critical, msg, t, none⟩],
        st.nextId + 2⟩,
      ⟨st.nextId, sid, v, v + s.calibration_offset, t, q⟩) := by
  have hcur : get_current { st with
      readings := st.readings ++ [⟨st.nextId, sid, v, v + s.calibration_offset, t, q⟩],
      nextId := st.nextId + 1 } sid =
      some ⟨st.nextId, sid, v, v + s.calibration_offset, t, q⟩ :=
    get_current_concat rfl rfl (hsorted.sublist (List.filter_sublist _))
      (fun x hx _ => hbound x hx)
  have hsen1 : get_sensor { st with
      readings := st.readings ++ [⟨st.nextId, sid, v, v + s.calibration_offset, t, q⟩],
      nextId := st.nextId + 1 } sid = some s := hs
  rw [log_reading_eq st sid v q t s hs, check_thresholds_eq _ sid t _ s hcur hsen1]
  by_cases h1 : v + s.calibration_offset < s.min_value
  · rw [if_pos h1]
    exact ⟨_, rfl⟩
  · rw [if_neg h1, if_pos (hout.resolve_left h1)]
    exact ⟨_, rfl⟩

/-- Induction core for C7: `n` out-of-range ingestions append `n` fresh
CRITICAL threshold alerts with strictly increasing ids. -/
theorem ingest_n_aux (sid : Nat) (v : ℚ) (q : ReadingQuality) (n : Nat) :
    ∀ (st : State) (t : ℚ) (s : Sensor),
      get_sensor st sid = some s →
      (v + s.calibration_offset < s.min_value ∨
        s.max_value < v + s.calibration_offset) →
      st.readings.Pairwise (fun a b => a.timestamp ≤ b.timestamp) →
      (∀ x ∈ st.readings, x.timestamp ≤ t) →
      ∃ st' l, ingest_n sid v q n st t = some st' ∧
        st'.alerts = st.alerts ++ l ∧ l.length = n ∧
        (∀ a ∈ l, a.type = AlertType.threshold ∧
          a.severity = AlertSeverity.critical ∧ a.sensor_id = sid ∧
          st.nextId ≤ a.id ∧ a.id < st'.nextId) ∧
        (l.map Alert.id).Pairwise (· < ·) ∧
        st.nextId ≤ st'.nextId := by
  induction n with
  | zero =>
      intro st t s _ _ _ _
      exact ⟨st, [], rfl, (List.append_nil _).symm, rfl, by simp, by simp, le_rfl⟩
  | succ n ih =>
      intro st t s hs hout hsorted hbound
      obtain ⟨msg, hstep⟩ := log_reading_breach st sid v q t s hs hout hsorted hbound
      have hsortedA : (st.readings ++ [(⟨st.nextId, sid, v,
          v + s.calibration_offset, t, q⟩ : Reading)]).Pairwise
          (fun a b => a.timestamp ≤ b.timestamp) :=
        List.pairwise_append.mpr ⟨hsorted, List.pairwise_singleton _ _,
          fun a ha b hb => by
            rw [List.mem_singleton] at hb
            exact hb ▸ hbound a ha⟩
      have hboundA : ∀ x ∈ st.readings ++ [(⟨st.nextId, sid, v,
          v + s.calibration_offset, t, q⟩ : Reading)], x.timestamp ≤ t + 1 := by
        intro x hx
        rcases List.mem_append.mp hx with h | h
        · linarith [hbound x h]
        · rw [List.mem_singleton] at h
          subst h
          norm_num
      obtain ⟨st'', l', hrun, halerts, hlen, hprops, hpair, hnext⟩ :=
        ih ⟨st.sensors, st.readings ++ [⟨st.nextId, sid, v,
            v + s.calibration_offset, t, q⟩],
          st.alerts ++ [⟨st.nextId + 1, sid, AlertType.threshold,
            AlertSeverity.critical, msg, t, none⟩],
          st.nextId + 2⟩ (t + 1) s hs hout hsortedA hboundA
      refine ⟨st'', ⟨st.nextId + 1, sid, AlertType.threshold,
        AlertSeverity.critical, msg, t, none⟩ :: l', ?_, ?_, ?_, ?_, ?_, ?_⟩
      · show (match log_reading st sid v q t with
          | none => none
          | some (st1, _) => ingest_n sid v q n st1 (t + 1)) = some st''
        rw [hstep]
        exact hrun
      · rw [halerts]
        simp
      · simp [hlen]
      · intro a ha
        rcases List.mem_cons.mp ha with h | h
        · subst h
          refine ⟨rfl, rfl, rfl, Nat.le_succ _, ?_⟩
          have h2 : st.nextId + 2 ≤ st''.nextId := hnext
          show st.nextId + 1 < st''.nextId
          omega
        · obtain ⟨h1, h2, h3, h4, h5⟩ := hprops a h
          have h4' : st.nextId + 2 ≤ a.id := h4
          exact ⟨h1, h2, h3, by omega, h5⟩
      · rw [List.map_cons]
        rw [List.pairwise_cons]
        refine ⟨?_, hpair⟩
        intro b hb
        rw [List.mem_map] at hb
        obtain ⟨a, ha, rfl⟩ := hb
        have h6 : st.nextId + 2 ≤ a.id := (hprops a ha).2.2.2.1
        show st.nextId + 1 < a.id
        omega
      · have h2 : st.nextId + 2 ≤ st''.nextId := hnext
        omega

/-- **C7**: alerts are never deduplicated — `n` successive ingestions of
an out-of-range value create `n` distinct threshold alert rows, each
CRITICAL, each with a fresh identity different from every pre-existing
alert, even though an equivalent alert is already active after the first
ingestion. -/
theorem ingest_out_of_range_no_dedup (st : State) (t : ℚ) (sid : Nat) (v : ℚ)
    (q : ReadingQuality) (s : Sensor) (n : Nat)
    (hs : get_sensor st sid = some s)
    (hout : v + s.calibration_offset < s.min_value ∨
      s.max_value < v + s.calibration_offset)
    (hsorted : st.readings.Pairwise (fun a b => a.timestamp ≤ b.timestamp))
    (hbound : ∀ x ∈ st.readings, x.timestamp ≤ t)
    (hfresh : ∀ b ∈ st.alerts, b.id < st.nextId) :
    ∃ st' l, ingest_n sid v q n st t = some st' ∧
      st'.alerts = st.alerts ++ l ∧ l.length = n ∧
      (∀ a ∈ l, a.type = AlertType.threshold ∧
        a.severity = AlertSeverity.critical ∧ a.sensor_id = sid) ∧
      (l.map Alert.id).Nodup ∧
      (∀ a ∈ l, ∀ b ∈ st.alerts, a.id ≠ b.id) := by
  obtain ⟨st', l, hrun, ha, hlen, hprops, hpair, -⟩ :=
    ingest_n_aux sid v q n st t s hs hout hsorted hbound
  refine ⟨st', l, hrun, ha, hlen, ?_, ?_, ?_⟩
  · intro a hal
    exact ⟨(hprops a hal).1, (hprops a hal).2.1, (hprops a hal).2.2.1⟩
  · exact hpair.imp Nat.ne_of_lt
  · intro a hal b hb
    have h1 := (hprops a hal).2.2.2.1
    have h2 := hfresh b hb
    omega

/-- Witness for C7: two ingestions of the out-of-range value 5 on a
sensor with range `[0, 1]`. -/
theorem ingest_out_of_range_no_dedup_witness :
    ∃ st' l, ingest_n 0 5 ReadingQuality.good 2
        ⟨[⟨0, "d", SensorType.temperature, "C", 0, 1, 0, none, none⟩], [], [], 1⟩
        0 = some st' ∧
      st'.alerts = (⟨[⟨0, "d", SensorType.temperature, "C", 0, 1, 0, none,
        none⟩], [], [], 1⟩ : State).alerts ++ l ∧ l.length = 2 ∧
      (∀ a ∈ l, a.type = AlertType.threshold ∧
        a.severity = AlertSeverity.critical ∧ a.sensor_id = 0) ∧
      (l.map Alert.id).Nodup ∧
      (∀ a ∈ l, ∀ b ∈ (⟨[⟨0, "d", SensorType.temperature, "C", 0, 1, 0, none,
        none⟩], [], [], 1⟩ : State).alerts, a.id ≠ b.id) :=
  ingest_out_of_range_no_dedup
    ⟨[⟨0, "d", SensorType.temperature, "C", 0, 1, 0, none, none⟩], [], [], 1⟩
    0 0 5 ReadingQuality.good
    ⟨0, "d", SensorType.temperature, "C", 0, 1, 0, none, none⟩ 2
    rfl (Or.inr (by norm_num)) (by simp) (by simp) (by simp)

end SensorDashboard
